import Mathlib

/-!
# go-tasker-web: the four task handlers of `server.go`

A shallow embedding of `indexHandler`, `addHandler`, `deleteHandler` and
`doneHandler`, together with the three collaborators they talk to:

* `primitive.ObjectID` with `ObjectIDFromHex` and `Hex` (twelve bytes, hex text);
* the `tasks` collection, as the list of the documents it holds, with the
  MongoDB meaning of `Find`, `InsertOne`, `DeleteOne` and `FindOneAndUpdate`
  on a healthy connection (transport failures are outside the model);
* `http.ResponseWriter`, with the `net/http` rule that the first `WriteHeader`
  (explicit, or implied by the first `Write`) fixes the status line and the
  headers, and that later `WriteHeader` calls are ignored.

The response body is kept as the sequence of writes made to the writer; a
write is either literal text or the output of `json.Marshal` on a value,
recorded as the JSON tree of that value.

What a handler reads from outside is an argument of its embedding: the outcome
of decoding the request body, the identifier `primitive.NewObjectID()` returns
and the instants `time.Now()` returns.

Left out: what goes to standard output and to the log; the headers `net/http`
adds by itself (`Date`, `Content-Length`, a sniffed `Content-Type`); and the
`panic(err)` arms after `json.Marshal`, which cannot fail on a `Task`, a
`[]*Task` or a `Response`.
-/

namespace Tasker

/-! ## `primitive.ObjectID` -/

/-- The type `primitive.ObjectID`, which is `[12]byte`. -/
def ObjectID : Type := { bs : List (Fin 256) // bs.length = 12 }

instance : DecidableEq ObjectID :=
  inferInstanceAs (DecidableEq { bs : List (Fin 256) // bs.length = 12 })

/-- The zero value `primitive.NilObjectID`. -/
def NilObjectID : ObjectID := ⟨List.replicate 12 0, by simp⟩

/-- Lower-case digit table of `encoding/hex`. -/
def hextable : List Char := "0123456789abcdef".data

/-- The digit `hextable[n]`. -/
def hexDigit (n : Nat) : Char := hextable.getD n '0'

/-- The function `hex.EncodeToString` on a byte slice: two lower-case digits per byte. -/
def hexEncode : List (Fin 256) → List Char
  | [] => []
  | b :: bs => hexDigit (b.val / 16) :: hexDigit (b.val % 16) :: hexEncode bs

/-- The function `fromHexChar` of `encoding/hex`: digits, `a`-`f` and `A`-`F`. -/
def fromHexChar (c : Char) : Option Nat :=
  if 48 ≤ c.toNat ∧ c.toNat ≤ 57 then some (c.toNat - 48)
  else if 97 ≤ c.toNat ∧ c.toNat ≤ 102 then some (c.toNat - 97 + 10)
  else if 65 ≤ c.toNat ∧ c.toNat ≤ 70 then some (c.toNat - 65 + 10)
  else none

/-- The function `hex.DecodeString`: `none` stands for `InvalidByteError` or `ErrLength`. -/
def hexDecode : List Char → Option (List (Fin 256))
  | [] => some []
  | [_] => none
  | p :: q :: rest =>
    match fromHexChar p, fromHexChar q, hexDecode rest with
    | some a, some b, some bs => some (Fin.ofNat (a * 16 + b) :: bs)
    | _, _, _ => none

/-- The method `ObjectID.Hex`. -/
def ObjectID.Hex (id : ObjectID) : String := String.mk (hexEncode id.val)

/-- The function `primitive.ObjectIDFromHex`. The second component is `err != nil`;
on an error the identifier returned is `NilObjectID`. -/
def ObjectIDFromHex (s : String) : ObjectID × Bool :=
  match hexDecode s.data with
  | none => (NilObjectID, true)
  | some bs => if h : bs.length = 12 then (⟨bs, h⟩, false) else (NilObjectID, true)

/-! ## Data model -/

/-- An instant, in nanoseconds since the Unix epoch (`time.Time`). -/
abbrev Time := Nat

/-- A BSON datetime keeps milliseconds only. -/
def Time.toBSON (t : Time) : Time := t / 1000000 * 1000000

/-- The struct `Request`. -/
structure Request where
  Command : String
  Task : String
  deriving DecidableEq, Repr

/-- The struct `Response`. -/
structure Response where
  Message : String
  ID : String
  deriving DecidableEq, Repr

/-- The struct `Task`. -/
structure Task where
  ID : ObjectID
  CreatedAt : Time
  UpdatedAt : Time
  Text : String
  Completed : Bool
  deriving DecidableEq

/-- What `json.NewDecoder(r.Body).Decode(&request)` leaves behind: whether it
returned an error, and the `Request` value after the call. A body that is not JSON
leaves the zero value; a body such as `{"command":1,"task":"buy milk"}` makes
`Decode` store `task`, skip the ill-typed `command` and return an
`UnmarshalTypeError`, so an error can come with a non-empty `Task`. -/
structure RequestBody where
  decodeErr : Bool
  request : Request
  deriving DecidableEq, Repr

/-! ## JSON produced by `json.Marshal` -/

/-- A JSON document. `time t` is the JSON string holding the RFC 3339 text of `t`. -/
inductive JSON where
  | null
  | bool (b : Bool)
  | str (s : String)
  | time (t : Time)
  | arr (items : List JSON)
  | obj (fields : List (String × JSON))

/-- Keys of a JSON object, in order; `none` for any other document. -/
def JSON.keys : JSON → Option (List String)
  | .obj fields => some (fields.map Prod.fst)
  | _ => none

/-- Value stored under a key of a JSON object. -/
def JSON.field (k : String) : JSON → Option JSON
  | .obj fields => (fields.find? (fun kv => kv.1 = k)).map Prod.snd
  | _ => none

/-- First character of the text `json.Marshal` writes for a document. -/
def JSON.firstChar : JSON → Char
  | .null => 'n'
  | .bool true => 't'
  | .bool false => 'f'
  | .str _ => '"'
  | .time _ => '"'
  | .arr _ => '['
  | .obj _ => '{'

/-- The function `json.Marshal` on a `Task`: the struct has `bson` tags only, so
`encoding/json` names each member after its Go field. -/
def Task.MarshalJSON (t : Task) : JSON :=
  .obj [("ID", .str t.ID.Hex), ("CreatedAt", .time t.CreatedAt),
        ("UpdatedAt", .time t.UpdatedAt), ("Text", .str t.Text),
        ("Completed", .bool t.Completed)]

/-- The function `json.Marshal` on a `Response`, whose fields carry `json` tags. -/
def Response.MarshalJSON (r : Response) : JSON :=
  .obj [("message", .str r.Message), ("id", .str r.ID)]

/-- The function `json.Marshal` on a `[]*Task`: a nil slice is `null`. -/
def marshalTasks : List Task → JSON
  | [] => .null
  | t :: ts => .arr ((t :: ts).map Task.MarshalJSON)

/-! ## `http.ResponseWriter` -/

/-- One write to the response body. -/
inductive Chunk where
  | text (s : String)
  | json (v : JSON)

/-- State of the response: the header map the handler edits, the status line
once it is written, the headers sent with it, and the body written so far. -/
structure ResponseWriter where
  header : List (String × String)
  status : Option Nat
  sent : List (String × String)
  body : List Chunk

/-- The writer a handler is called with. -/
def ResponseWriter.fresh : ResponseWriter := ⟨[], none, [], []⟩

/-- The call `w.Header().Set(k, v)`. -/
def ResponseWriter.SetHeader (w : ResponseWriter) (k v : String) : ResponseWriter :=
  { w with header := (k, v) :: w.header.filter (fun kv => kv.1 ≠ k) }

/-- The call `w.WriteHeader(code)`: only the first call counts. -/
def ResponseWriter.WriteHeader (w : ResponseWriter) (code : Nat) : ResponseWriter :=
  match w.status with
  | some _ => w
  | none => { w with status := some code, sent := w.header }

/-- The call `w.Write(data)`: writes the header with status 200 when none was written. -/
def ResponseWriter.Write (w : ResponseWriter) (data : Chunk) : ResponseWriter :=
  let w1 := w.WriteHeader 200
  { w1 with body := w1.body ++ [data] }

/-- The call `fmt.Fprintf(w, s)` for a format string without verbs. -/
def ResponseWriter.Fprintf (w : ResponseWriter) (s : String) : ResponseWriter :=
  w.Write (.text s)

/-- The function `http.Error`. -/
def http.Error (w : ResponseWriter) (error : String) (code : Nat) : ResponseWriter :=
  (((w.SetHeader "Content-Type" "text/plain; charset=utf-8").SetHeader
    "X-Content-Type-Options" "nosniff").WriteHeader code).Write (.text (error ++ "\n"))

/-- Value of a header that was sent with the status line. -/
def ResponseWriter.sentHeader (w : ResponseWriter) (k : String) : Option String :=
  (w.sent.find? (fun kv => kv.1 = k)).map Prod.snd

/-- First character of the body. -/
def bodyFirstChar : List Chunk → Option Char
  | [] => none
  | .json v :: _ => some v.firstChar
  | .text s :: rest =>
    match s.data with
    | c :: _ => some c
    | [] => bodyFirstChar rest

/-- Characters a JSON text can begin with (RFC 8259: white space, then a value). -/
def jsonFirstChars : List Char := " \t\n\r\x7b[\"-0123456789tfn".data

/-- Necessary condition for the body to be a JSON text: it is not empty and
begins the way a JSON text does. -/
def bodyStartsLikeJSON (body : List Chunk) : Bool :=
  match bodyFirstChar body with
  | none => false
  | some c => decide (c ∈ jsonFirstChars)

/-! ## The `tasks` collection -/

/-- Documents of the collection, in the order `Find` returns them. -/
abbrev Collection := List Task

/-- Identifiers of the documents of a collection. -/
def Collection.ids (c : Collection) : List ObjectID := c.map Task.ID

/-- The unique index MongoDB keeps on `_id`. -/
def Collection.WF (c : Collection) : Prop := c.ids.Nodup

instance (c : Collection) : Decidable c.WF :=
  inferInstanceAs (Decidable c.ids.Nodup)

/-- Errors the collection reports. -/
inductive StoreError where
  | duplicateKey
  | ErrNoDocuments
  deriving DecidableEq, Repr

/-- The struct `mongo.DeleteResult`. -/
structure DeleteResult where
  DeletedCount : Nat
  deriving DecidableEq, Repr

/-- What is stored for a `Task`: the datetimes lose their sub-millisecond part. -/
def Task.toBSON (t : Task) : Task :=
  { t with CreatedAt := t.CreatedAt.toBSON, UpdatedAt := t.UpdatedAt.toBSON }

/-- The type `mongo.Cursor`: the documents still to come and what `cur.Err()` reports. -/
structure Cursor where
  docs : List Task
  Err : Option StoreError

/-- The call `collection.Find(ctx, bson.D{{}})`: every document, in store order. -/
def Collection.Find (c : Collection) : Cursor × Option StoreError := (⟨c, none⟩, none)

/-- The call `cur.Decode(&t)` on a document of the collection. -/
def Cursor.Decode (doc : Task) : Task × Option StoreError := (doc, none)

/-- The call `collection.InsertOne(ctx, t)`: refused when the `_id` is taken. -/
def Collection.InsertOne (c : Collection) (t : Task) : Collection × Option StoreError :=
  if t.ID ∈ c.ids then (c, some .duplicateKey) else (c ++ [t.toBSON], none)

/-- Removes the first document with the given `_id`; also says how many were removed. -/
def deleteFirst (id : ObjectID) : List Task → List Task × Nat
  | [] => ([], 0)
  | t :: ts =>
    if t.ID = id then (ts, 1)
    else ((t :: (deleteFirst id ts).1), (deleteFirst id ts).2)

/-- The call `collection.DeleteOne(ctx, bson.D{{"_id", id}})`. -/
def Collection.DeleteOne (c : Collection) (id : ObjectID) :
    Collection × DeleteResult × Option StoreError :=
  ((deleteFirst id c).1, ⟨(deleteFirst id c).2⟩, none)

/-- Sets `completed` on the first document with the given `_id`; returns the
document found, as it was before the update. -/
def updateFirst (id : ObjectID) : List Task → List Task × Option Task
  | [] => ([], none)
  | t :: ts =>
    if t.ID = id then ({ t with Completed := true } :: ts, some t)
    else ((t :: (updateFirst id ts).1), (updateFirst id ts).2)

/-- The call `collection.FindOneAndUpdate(ctx, {"_id": id}, {"$set": {"completed": true}})`
followed by `Decode`: either the document found, or `ErrNoDocuments`. -/
def Collection.FindOneAndUpdate (c : Collection) (id : ObjectID) :
    Collection × Except StoreError Task :=
  match (updateFirst id c).2 with
  | some doc => ((updateFirst id c).1, .ok doc)
  | none => (c, .error .ErrNoDocuments)

/-! ## The handlers -/

/-- Body of the loop `for cur.Next(ctx)` of `indexHandler`: decode the document,
report a decode error, append the task. -/
def indexHandler.loop (acc : ResponseWriter × List Task) (doc : Task) :
    ResponseWriter × List Task :=
  let (t, err) := Cursor.Decode doc
  let w := if err.isSome then (acc.1.WriteHeader 400).Fprintf "Error parsing data." else acc.1
  (w, acc.2 ++ [t])

/-- The function `indexHandler`. The request is not read. -/
def indexHandler (w : ResponseWriter) (collection : Collection) : ResponseWriter :=
  let (cur, err) := collection.Find
  let w := if err.isSome then (w.WriteHeader 400).Fprintf "Error finding collection." else w
  let (w, tasks) := cur.docs.foldl indexHandler.loop (w, [])
  let w := if cur.Err.isSome then (w.WriteHeader 400).Fprintf "Database error." else w
  let w := if tasks.length = 0 then (w.WriteHeader 400).Fprintf "No tasks to return." else w
  let response := marshalTasks tasks
  let w := w.SetHeader "Content-Type" "application/json"
  w.Write (.json response)

/-- The function `addHandler`. `newObjectID` is what `primitive.NewObjectID()`
returns, `now₁` and `now₂` what the two calls of `time.Now()` return. -/
def addHandler (w : ResponseWriter) (r : RequestBody) (newObjectID : ObjectID)
    (now₁ now₂ : Time) (collection : Collection) : ResponseWriter × Collection :=
  let request := r.request
  let w := if r.decodeErr then
      (w.WriteHeader 400).Fprintf "Decode error! please check your JSON formating."
    else w
  let task := request.Task
  if task = "" then
    (http.Error w "Cannot add an empty task." 400, collection)
  else
    let addTask : Task :=
      { ID := newObjectID, CreatedAt := now₁, UpdatedAt := now₂, Text := task,
        Completed := false }
    -- the error of `InsertOne` is overwritten before it is read
    let (collection, _) := collection.InsertOne addTask
    let response := addTask.MarshalJSON
    let w := w.SetHeader "Content-Type" "application/json"
    (w.Write (.json response), collection)

/-- The function `deleteHandler`. -/
def deleteHandler (w : ResponseWriter) (r : RequestBody) (collection : Collection) :
    ResponseWriter × Collection :=
  let request := r.request
  let w := if r.decodeErr then
      (w.WriteHeader 400).Fprintf "Decode error! please check your JSON formating."
    else w
  let taskId := request.Task
  -- the error of `ObjectIDFromHex` is overwritten before it is read
  let (idPrimitive, _) := ObjectIDFromHex taskId
  let (collection, res, err) := collection.DeleteOne idPrimitive
  let w := if err.isSome then (w.WriteHeader 400).Fprintf "Error deleting task." else w
  let w := if res.DeletedCount = 0 then
      (w.WriteHeader 400).Fprintf "No tasks were deleted"
    else w
  let serverResponse : Response := { Message := "Task successfully deleted.", ID := taskId }
  let response := serverResponse.MarshalJSON
  let w := w.SetHeader "Content-Type" "application/json"
  (w.Write (.json response), collection)

/-- The function `doneHandler`. -/
def doneHandler (w : ResponseWriter) (r : RequestBody) (collection : Collection) :
    ResponseWriter × Collection :=
  let request := r.request
  if r.decodeErr then
    (http.Error w "Bad JSON formatting." 400, collection)
  else
    let taskId := request.Task
    -- the error of `ObjectIDFromHex` is overwritten before it is read
    let (idPrimitive, _) := ObjectIDFromHex taskId
    match collection.FindOneAndUpdate idPrimitive with
    | (collection, .error .ErrNoDocuments) =>
      (http.Error w "Cannot find task to update." 400, collection)
    | (collection, .error .duplicateKey) =>
      -- any other error: `updatedDocument` is nil and the type assertion on its
      -- `_id` panics before anything is written
      (w, collection)
    | (collection, .ok updatedDocument) =>
      let mongoId := updatedDocument.ID
      let stringObjectID := mongoId.Hex
      let serverResponse : Response :=
        { Message := "Status successfully updated.", ID := stringObjectID }
      let response := serverResponse.MarshalJSON
      let w := w.SetHeader "Content-Type" "application/json"
      (w.Write (.json response), collection)

/-! ## Sequences of calls -/

/-- One call of `addHandler`: the decoded body and what `primitive.NewObjectID()`
and the two calls of `time.Now()` return during it. -/
structure AddCall where
  body : RequestBody
  newObjectID : ObjectID
  now₁ : Time
  now₂ : Time

/-- The collection after a sequence of `addHandler` calls, each on a new writer. -/
def runAdds : List AddCall → Collection → Collection
  | [], collection => collection
  | a :: rest, collection =>
    runAdds rest (addHandler .fresh a.body a.newObjectID a.now₁ a.now₂ collection).2

/-- The task an `addHandler` call builds, as the collection stores it. -/
def AddCall.stored (a : AddCall) : Task :=
  { ID := a.newObjectID, CreatedAt := a.now₁.toBSON, UpdatedAt := a.now₂.toBSON,
    Text := a.body.request.Task, Completed := false }

/-- Lower-case form of a string. -/
def lowerCase (s : String) : String := String.mk (s.data.map Char.toLower)

/-! ## Sample values -/

/-- The identifier whose hex text is `5f3c0a1b2c3d4e5f60718293`. -/
def sampleID : ObjectID :=
  ⟨[0x5f, 0x3c, 0x0a, 0x1b, 0x2c, 0x3d, 0x4e, 0x5f, 0x60, 0x71, 0x82, 0x93], rfl⟩

/-- The identifier whose hex text is `5f3c0a1b2c3d4e5f60718294`. -/
def sampleID₂ : ObjectID :=
  ⟨[0x5f, 0x3c, 0x0a, 0x1b, 0x2c, 0x3d, 0x4e, 0x5f, 0x60, 0x71, 0x82, 0x94], rfl⟩

/-- A stored task with identifier `sampleID`. -/
def sampleTask : Task :=
  { ID := sampleID, CreatedAt := 1700000000000000000, UpdatedAt := 1700000000000000000,
    Text := "buy milk", Completed := false }

/-- A stored task with identifier `sampleID₂`. -/
def sampleTask₂ : Task :=
  { ID := sampleID₂, CreatedAt := 1700000001000000000, UpdatedAt := 1700000001000000000,
    Text := "walk dog", Completed := false }

/-- The decoded body of `{"task":"buy milk"}`. -/
def buyMilk : RequestBody := ⟨false, ⟨"", "buy milk"⟩⟩

/-- The decoded body of `{"task":"5f3c0a1b2c3d4e5f60718293"}`. -/
def sampleRequest : Request := ⟨"", "5f3c0a1b2c3d4e5f60718293"⟩

/-- The decoded body of `{"task":"5F3C0A1B2C3D4E5F60718293"}`. -/
def upperRequest : Request := ⟨"", "5F3C0A1B2C3D4E5F60718293"⟩

/-- The decoded body of `{"task":"000000000000000000000000"}`. -/
def zeroRequest : Request := ⟨"", "000000000000000000000000"⟩

/-! ## Hexadecimal text of identifiers -/

theorem fromHexChar_lower (c : Char) (n : Nat) (h : fromHexChar c = some n) :
    n < 16 ∧ hexDigit n = c.toLower := by
  have hc : Char.ofNat c.toNat = c := Char.ofNat_toNat c
  unfold fromHexChar at h
  split at h
  · rename_i h1
    obtain ⟨ha, hb⟩ := h1
    rw [← hc]
    simp at h
    subst h
    generalize c.toNat = k at *
    interval_cases k <;> decide
  · split at h
    · rename_i h1
      obtain ⟨ha, hb⟩ := h1
      rw [← hc]
      simp at h
      subst h
      generalize c.toNat = k at *
      interval_cases k <;> decide
    · split at h
      · rename_i h1
        obtain ⟨ha, hb⟩ := h1
        rw [← hc]
        simp at h
        subst h
        generalize c.toNat = k at *
        interval_cases k <;> decide
      · simp at h

theorem hexEncode_hexDecode :
    ∀ (cs : List Char) (bs : List (Fin 256)),
      hexDecode cs = some bs → hexEncode bs = cs.map Char.toLower
  | [], bs, h => by
    simp [hexDecode] at h
    subst h
    rfl
  | [_], bs, h => by simp [hexDecode] at h
  | p :: q :: rest, bs, h => by
    rw [hexDecode] at h
    split at h
    · rename_i a b bs1 ha hb hbs
      simp at h
      subst h
      obtain ⟨ha1, ha2⟩ := fromHexChar_lower p a ha
      obtain ⟨hb1, hb2⟩ := fromHexChar_lower q b hb
      have hv : (Fin.ofNat (a * 16 + b) : Fin 256).val = a * 16 + b := by
        simp [Fin.ofNat]; omega
      have hd : (a * 16 + b) / 16 = a := by omega
      have hm : (a * 16 + b) % 16 = b := by omega
      have ih := hexEncode_hexDecode rest bs1 hbs
      simp [hexEncode, hv, hd, hm, ha2, hb2, ih]
    · simp at h

/-- The hex text of a parsed identifier is the lower-case form of the text parsed. -/
theorem Hex_ObjectIDFromHex (s : String) (id : ObjectID) (h : ObjectIDFromHex s = (id, false)) :
    id.Hex = lowerCase s := by
  unfold ObjectIDFromHex at h
  split at h
  · simp at h
  · rename_i bs hbs
    split at h
    · simp at h
      subst h
      simp [ObjectID.Hex, lowerCase, hexEncode_hexDecode _ _ hbs]
    · simp at h

/-! ## The collection operations -/

theorem updateFirst_absent (id : ObjectID) (c : List Task) (h : id ∉ c.map Task.ID) :
    updateFirst id c = (c, none) := by
  induction c with
  | nil => rfl
  | cons t ts ih =>
    simp at h
    have h1 : ¬ t.ID = id := fun e => h.1 e.symm
    simp [updateFirst, h1, ih (by simpa using h.2)]

theorem updateFirst_present (id : ObjectID) (c : List Task) (h : id ∈ c.map Task.ID) :
    ∃ t, (updateFirst id c).2 = some t ∧ t.ID = id ∧ t ∈ c := by
  induction c with
  | nil => simp at h
  | cons t ts ih =>
    by_cases h1 : t.ID = id
    · exact ⟨t, by simp [updateFirst, h1], h1, by simp⟩
    · have h2 : id ∈ ts.map Task.ID := by
        simp at h
        rcases h with h | h
        · exact absurd h.symm h1
        · simpa using h
      obtain ⟨u, hu, hid, hmem⟩ := ih h2
      exact ⟨u, by simp [updateFirst, h1, hu], hid, by simp [hmem]⟩

theorem updateFirst_eq_map (id : ObjectID) (c : List Task) (h : (c.map Task.ID).Nodup) :
    (updateFirst id c).1 =
      c.map (fun t => if t.ID = id then { t with Completed := true } else t) := by
  induction c with
  | nil => rfl
  | cons t ts ih =>
    simp at h
    by_cases h1 : t.ID = id
    · have h2 : ∀ u ∈ ts, ¬ u.ID = id := by
        intro u hu e
        exact h.1 u hu (by rw [h1, e])
      have h3 : ts.map (fun t => if t.ID = id then { t with Completed := true } else t) = ts := by
        conv_rhs => rw [← List.map_id ts]
        apply List.map_congr_left
        intro u hu
        simp [h2 u hu]
      simp [updateFirst, h1, h3]
    · simp [updateFirst, h1, ih (by simpa using h.2)]

theorem updateFirst_ids (id : ObjectID) (c : List Task) :
    ((updateFirst id c).1).map Task.ID = c.map Task.ID := by
  induction c with
  | nil => rfl
  | cons t ts ih =>
    by_cases h1 : t.ID = id
    · simp [updateFirst, h1]
    · simp [updateFirst, h1, ih]

theorem updateFirst_idem (id : ObjectID) (c : List Task) :
    (updateFirst id (updateFirst id c).1).1 = (updateFirst id c).1 := by
  induction c with
  | nil => rfl
  | cons t ts ih =>
    by_cases h1 : t.ID = id
    · simp [updateFirst, h1]
    · simp [updateFirst, h1, ih]

theorem deleteFirst_absent (id : ObjectID) (c : List Task) (h : id ∉ c.map Task.ID) :
    deleteFirst id c = (c, 0) := by
  induction c with
  | nil => rfl
  | cons t ts ih =>
    simp at h
    have h1 : ¬ t.ID = id := fun e => h.1 e.symm
    simp [deleteFirst, h1, ih (by simpa using h.2)]

theorem deleteFirst_present (id : ObjectID) (c : List Task) (h : id ∈ c.map Task.ID) :
    (deleteFirst id c).2 = 1 ∧ (deleteFirst id c).1.length + 1 = c.length := by
  induction c with
  | nil => simp at h
  | cons t ts ih =>
    by_cases h1 : t.ID = id
    · simp [deleteFirst, h1]
    · have h2 : id ∈ ts.map Task.ID := by
        simp at h
        rcases h with h | h
        · exact absurd h.symm h1
        · simpa using h
      simp [deleteFirst, h1, ih h2]

theorem deleteFirst_eq_filter (id : ObjectID) (c : List Task) (h : (c.map Task.ID).Nodup) :
    (deleteFirst id c).1 = c.filter (fun t => decide (t.ID ≠ id)) := by
  induction c with
  | nil => rfl
  | cons t ts ih =>
    simp at h
    by_cases h1 : t.ID = id
    · have h2 : ∀ u ∈ ts, ¬ u.ID = id := by
        intro u hu e
        exact h.1 u hu (by rw [h1, e])
      have h3 : ts.filter (fun t => !decide (t.ID = id)) = ts := by
        apply List.filter_eq_self.2
        intro u hu
        simp [h2 u hu]
      simp [deleteFirst, h1, h3]
    · simp [deleteFirst, h1, ih (by simpa using h.2)]

/-! ## What each handler does -/

theorem addHandler_of_empty (w : ResponseWriter) (r : RequestBody) (newObjectID : ObjectID)
    (now₁ now₂ : Time) (collection : Collection) (h : r.request.Task = "") :
    (addHandler w r newObjectID now₁ now₂ collection).2 = collection := by
  simp [addHandler, h]

theorem addHandler_collection (w : ResponseWriter) (r : RequestBody) (newObjectID : ObjectID)
    (now₁ now₂ : Time) (collection : Collection) (hs : r.request.Task ≠ "") :
    (addHandler w r newObjectID now₁ now₂ collection).2 =
      if newObjectID ∈ collection.ids then collection
      else collection ++ [AddCall.stored ⟨r, newObjectID, now₁, now₂⟩] := by
  by_cases hm : newObjectID ∈ collection.ids <;>
    simp [addHandler, hs, hm, Collection.InsertOne, AddCall.stored, Task.toBSON]

/-- The unique index on `_id` survives `addHandler`, whatever identifier is generated. -/
theorem addHandler_WF (w : ResponseWriter) (r : RequestBody) (newObjectID : ObjectID)
    (now₁ now₂ : Time) (collection : Collection) (hwf : collection.WF) :
    (addHandler w r newObjectID now₁ now₂ collection).2.WF := by
  by_cases hs : r.request.Task = ""
  · rw [addHandler_of_empty w r newObjectID now₁ now₂ collection hs]
    exact hwf
  · rw [addHandler_collection w r newObjectID now₁ now₂ collection hs]
    split
    · exact hwf
    · rename_i hm
      unfold Collection.WF Collection.ids at *
      rw [List.map_append, List.nodup_append]
      refine ⟨hwf, by simp, ?_⟩
      intro a ha hb
      simp [AddCall.stored] at hb
      subst hb
      exact hm ha

theorem doneHandler_found (request : Request) (id : ObjectID) (collection : Collection)
    (hx : (ObjectIDFromHex request.Task).1 = id) (hmem : id ∈ collection.ids) :
    doneHandler .fresh ⟨false, request⟩ collection =
      (⟨[("Content-Type", "application/json")], some 200,
        [("Content-Type", "application/json")],
        [Chunk.json (Response.MarshalJSON ⟨"Status successfully updated.", id.Hex⟩)]⟩,
       (updateFirst id collection).1) := by
  obtain ⟨t, ht, hid, -⟩ := updateFirst_present id collection hmem
  have hp : ObjectIDFromHex request.Task = (id, (ObjectIDFromHex request.Task).2) := by
    rw [← hx]
  simp only [doneHandler]
  rw [hp]
  simp [Collection.FindOneAndUpdate, ht, hid, ResponseWriter.Write, ResponseWriter.WriteHeader,
    ResponseWriter.SetHeader, ResponseWriter.fresh]

theorem doneHandler_not_found (request : Request) (collection : Collection)
    (hno : (ObjectIDFromHex request.Task).1 ∉ collection.ids) :
    doneHandler .fresh ⟨false, request⟩ collection =
      (http.Error .fresh "Cannot find task to update." 400, collection) := by
  have h := updateFirst_absent _ collection hno
  simp [doneHandler, Collection.FindOneAndUpdate, h]

theorem deleteHandler_found (r : RequestBody) (id : ObjectID) (collection : Collection)
    (hx : (ObjectIDFromHex r.request.Task).1 = id) (hmem : id ∈ collection.ids) :
    (deleteHandler .fresh r collection).2 = (deleteFirst id collection).1 ∧
    (deleteHandler .fresh r collection).1.status
      = some (if r.decodeErr then 400 else 200) ∧
    (deleteHandler .fresh r collection).1.body =
      (if r.decodeErr then
        [Chunk.text "Decode error! please check your JSON formating."] else []) ++
      [Chunk.json (Response.MarshalJSON ⟨"Task successfully deleted.", r.request.Task⟩)] := by
  have h := (deleteFirst_present id collection hmem).1
  have hp : ObjectIDFromHex r.request.Task = (id, (ObjectIDFromHex r.request.Task).2) := by
    rw [← hx]
  simp only [deleteHandler]
  rw [hp]
  cases hd : r.decodeErr <;>
    simp [Collection.DeleteOne, h, hd, ResponseWriter.Write, ResponseWriter.WriteHeader,
      ResponseWriter.SetHeader, ResponseWriter.fresh, ResponseWriter.Fprintf]

theorem deleteHandler_not_found (r : RequestBody) (collection : Collection)
    (hno : (ObjectIDFromHex r.request.Task).1 ∉ collection.ids) :
    (deleteHandler .fresh r collection).2 = collection ∧
    (deleteHandler .fresh r collection).1.status = some 400 ∧
    (deleteHandler .fresh r collection).1.body =
      (if r.decodeErr then
        [Chunk.text "Decode error! please check your JSON formating."] else []) ++
      [Chunk.text "No tasks were deleted",
       Chunk.json (Response.MarshalJSON ⟨"Task successfully deleted.", r.request.Task⟩)] := by
  have h := deleteFirst_absent _ collection hno
  cases hd : r.decodeErr <;>
    simp [deleteHandler, Collection.DeleteOne, h, hd, ResponseWriter.Write,
      ResponseWriter.WriteHeader, ResponseWriter.SetHeader, ResponseWriter.fresh,
      ResponseWriter.Fprintf]

theorem foldl_cursor (docs acc : List Task) (w : ResponseWriter) :
    docs.foldl indexHandler.loop (w, acc) = (w, acc ++ docs) := by
  induction docs generalizing acc with
  | nil => simp
  | cons t ts ih =>
    have hstep : indexHandler.loop (w, acc) t = (w, acc ++ [t]) := by
      simp [indexHandler.loop, Cursor.Decode]
    rw [List.foldl_cons, hstep, ih]
    simp

theorem indexHandler_nonempty (t : Task) (ts : List Task) :
    indexHandler .fresh (t :: ts) =
      ⟨[("Content-Type", "application/json")], some 200,
       [("Content-Type", "application/json")],
       [Chunk.json (JSON.arr ((t :: ts).map Task.MarshalJSON))]⟩ := by
  unfold indexHandler
  simp only [Collection.Find, Option.isSome_none, Bool.false_eq_true, if_false]
  rw [foldl_cursor]
  simp [marshalTasks,
    ResponseWriter.Write, ResponseWriter.WriteHeader, ResponseWriter.SetHeader,
    ResponseWriter.fresh]

theorem indexHandler_empty :
    indexHandler .fresh [] =
      ⟨[("Content-Type", "application/json")], some 400, [],
       [Chunk.text "No tasks to return.", Chunk.json JSON.null]⟩ := by
  rfl

theorem runAdds_fresh (calls : List AddCall) :
    ∀ collection : Collection,
      (∀ a ∈ calls, a.body.request.Task ≠ "") →
      (calls.map AddCall.newObjectID).Nodup →
      (∀ a ∈ calls, a.newObjectID ∉ collection.ids) →
      runAdds calls collection = collection ++ calls.map AddCall.stored := by
  induction calls with
  | nil => intro collection _ _ _; simp [runAdds]
  | cons a rest ih =>
    intro collection htext hnd hfresh
    have ha : a.body.request.Task ≠ "" := htext a (by simp)
    have hf : a.newObjectID ∉ collection.ids := hfresh a (by simp)
    simp only [runAdds]
    rw [addHandler_collection _ _ _ _ _ _ ha, if_neg hf]
    simp at hnd
    rw [ih]
    · simp
    · intro b hb; exact htext b (by simp [hb])
    · exact hnd.2
    · intro b hb
      simp [Collection.ids, AddCall.stored]
      refine ⟨?_, ?_⟩
      · intro u hu e
        exact hfresh b (by simp [hb]) (by simp [Collection.ids]; exact ⟨u, hu, e⟩)
      · intro e
        exact hnd.1 b hb e

/-! ## The claims -/

/-- C1: a create request whose decoded `task` is the empty string is answered with
status 400 and the line "Cannot add an empty task." (written after the decode-error
text when decoding had failed), and the collection after the call is the collection
before it. -/
theorem addHandler_empty_task (r : RequestBody) (newObjectID : ObjectID) (now₁ now₂ : Time)
    (collection : Collection) (h : r.request.Task = "") :
    (addHandler .fresh r newObjectID now₁ now₂ collection).1.status = some 400 ∧
    (addHandler .fresh r newObjectID now₁ now₂ collection).1.body =
      (if r.decodeErr then
        [Chunk.text "Decode error! please check your JSON formating."] else []) ++
      [Chunk.text "Cannot add an empty task.\n"] ∧
    (addHandler .fresh r newObjectID now₁ now₂ collection).2 = collection := by
  cases hd : r.decodeErr <;>
    simp [addHandler, h, hd, http.Error, ResponseWriter.Write, ResponseWriter.WriteHeader,
      ResponseWriter.SetHeader, ResponseWriter.fresh, ResponseWriter.Fprintf]

theorem addHandler_empty_task_witness :
    (RequestBody.mk true ⟨"", ""⟩).request.Task = "" ∧
    (addHandler .fresh (RequestBody.mk true ⟨"", ""⟩) sampleID 5 7 [sampleTask₂]).1.status
      = some 400 ∧
    (addHandler .fresh (RequestBody.mk true ⟨"", ""⟩) sampleID 5 7 [sampleTask₂]).1.body =
      (if (RequestBody.mk true ⟨"", ""⟩).decodeErr then
        [Chunk.text "Decode error! please check your JSON formating."] else []) ++
      [Chunk.text "Cannot add an empty task.\n"] ∧
    (addHandler .fresh (RequestBody.mk true ⟨"", ""⟩) sampleID 5 7 [sampleTask₂]).2
      = [sampleTask₂] :=
  ⟨rfl, addHandler_empty_task (RequestBody.mk true ⟨"", ""⟩) sampleID 5 7 [sampleTask₂] rfl⟩

/-- C2, as the code has it: for a create request with non-empty `task` text `s` and
every collection, when no task already has the identifier generated for the call,
the collection afterwards is the collection before followed by a task with text
`s`, `completed = false` and that identifier; when a task already has it, the
insert is refused and the collection is unchanged. In both cases any task the
call adds has an identifier that differs from the identifier of every task held
before, and the identifiers stay unique. -/
theorem addHandler_persists (r : RequestBody) (newObjectID : ObjectID) (now₁ now₂ : Time)
    (collection : Collection) (hs : r.request.Task ≠ "") :
    (newObjectID ∉ collection.ids →
      (addHandler .fresh r newObjectID now₁ now₂ collection).2 =
        collection ++
          [{ ID := newObjectID, CreatedAt := now₁.toBSON, UpdatedAt := now₂.toBSON,
             Text := r.request.Task, Completed := false }]) ∧
    (newObjectID ∈ collection.ids →
      (addHandler .fresh r newObjectID now₁ now₂ collection).2 = collection) ∧
    (∀ t ∈ (addHandler .fresh r newObjectID now₁ now₂ collection).2, t ∉ collection →
      t.Text = r.request.Task ∧ t.Completed = false ∧ t.ID = newObjectID ∧
      ∀ u ∈ collection, u.ID ≠ t.ID) ∧
    (collection.WF → (addHandler .fresh r newObjectID now₁ now₂ collection).2.WF) := by
  have hc := addHandler_collection .fresh r newObjectID now₁ now₂ collection hs
  refine ⟨?_, ?_, ?_, ?_⟩
  · intro hfree
    rw [hc, if_neg hfree]
    rfl
  · intro htaken
    rw [hc, if_pos htaken]
  · intro t ht hnew
    by_cases hm : newObjectID ∈ collection.ids
    · rw [hc, if_pos hm] at ht
      exact absurd ht hnew
    · rw [hc, if_neg hm, List.mem_append] at ht
      rcases ht with ht | ht
      · exact absurd ht hnew
      · rw [List.mem_singleton] at ht
        subst ht
        refine ⟨rfl, rfl, rfl, ?_⟩
        intro u hu e
        apply hm
        simp only [Collection.ids, List.mem_map]
        exact ⟨u, hu, e⟩
  · exact addHandler_WF _ _ _ _ _ _

theorem addHandler_persists_witness :
    buyMilk.request.Task ≠ "" ∧
    (sampleID ∉ Collection.ids [sampleTask₂] →
      (addHandler .fresh buyMilk sampleID 5 7 [sampleTask₂]).2 =
        [sampleTask₂] ++
          [{ ID := sampleID, CreatedAt := Time.toBSON 5, UpdatedAt := Time.toBSON 7,
             Text := buyMilk.request.Task, Completed := false }]) ∧
    (sampleID ∈ Collection.ids [sampleTask₂] →
      (addHandler .fresh buyMilk sampleID 5 7 [sampleTask₂]).2 = [sampleTask₂]) ∧
    (∀ t ∈ (addHandler .fresh buyMilk sampleID 5 7 [sampleTask₂]).2, t ∉ [sampleTask₂] →
      t.Text = buyMilk.request.Task ∧ t.Completed = false ∧ t.ID = sampleID ∧
      ∀ u ∈ [sampleTask₂], u.ID ≠ t.ID) ∧
    (Collection.WF [sampleTask₂] →
      (addHandler .fresh buyMilk sampleID 5 7 [sampleTask₂]).2.WF) :=
  ⟨by decide, addHandler_persists buyMilk sampleID 5 7 [sampleTask₂] (by decide)⟩

/-- C2 as stated fails: with the collection holding one task under the identifier
`5f3c0a1b2c3d4e5f60718294` and that identifier generated for the call, the body
`{"task":"buy milk"}` is answered with 200 while the collection is left as it
was, holding no task with text "buy milk". The same happens whatever identifier is
generated, in the collection that already holds a task under it. -/
theorem addHandler_collision_counterexample :
    (buyMilk.request.Task ≠ "" ∧
     (addHandler .fresh buyMilk sampleID₂ 5 7 [sampleTask₂]).1.status = some 200 ∧
     (addHandler .fresh buyMilk sampleID₂ 5 7 [sampleTask₂]).2 = [sampleTask₂] ∧
     ¬ ∃ t ∈ (addHandler .fresh buyMilk sampleID₂ 5 7 [sampleTask₂]).2,
        t.Text = buyMilk.request.Task ∧ t.Completed = false ∧
        ∀ u ∈ [sampleTask₂], u.ID ≠ t.ID) ∧
    (∀ (newObjectID : ObjectID) (now₁ now₂ : Time),
      ¬ ∃ t ∈ (addHandler .fresh buyMilk newObjectID now₁ now₂
          [{ ID := newObjectID, CreatedAt := 0, UpdatedAt := 0, Text := "walk dog",
             Completed := false }]).2,
        t.Text = buyMilk.request.Task) := by
  refine ⟨⟨by decide, by decide, by decide, by decide⟩, ?_⟩
  intro newObjectID now₁ now₂
  have hs : buyMilk.request.Task ≠ "" := by decide
  rw [addHandler_collection _ _ _ _ _ _ hs, if_pos (by simp [Collection.ids])]
  simp [buyMilk]

/-- C3: for a well-formed identifier of a task held in the collection (a collection
whose `_id`s are unique, as MongoDB keeps them), `doneHandler` answers 200 and
leaves that task with `completed = true` and every other field of every task as it
was; a second call with the same identifier answers 200 with the success body, not
the not-found answer, and leaves the collection exactly as the first call left it. -/
theorem doneHandler_idempotent (request : Request) (id : ObjectID) (collection : Collection)
    (hx : ObjectIDFromHex request.Task = (id, false)) (hmem : id ∈ collection.ids)
    (hwf : collection.WF) :
    (doneHandler .fresh ⟨false, request⟩ collection).1.status = some 200 ∧
    (doneHandler .fresh ⟨false, request⟩ collection).2 =
      collection.map (fun t => if t.ID = id then { t with Completed := true } else t) ∧
    (∃ t ∈ (doneHandler .fresh ⟨false, request⟩ collection).2, t.ID = id) ∧
    (∀ t ∈ (doneHandler .fresh ⟨false, request⟩ collection).2,
      t.ID = id → t.Completed = true) ∧
    (doneHandler .fresh ⟨false, request⟩
      (doneHandler .fresh ⟨false, request⟩ collection).2).1.status = some 200 ∧
    (doneHandler .fresh ⟨false, request⟩
      (doneHandler .fresh ⟨false, request⟩ collection).2).1.body =
      [Chunk.json (JSON.obj [("message", JSON.str "Status successfully updated."),
        ("id", JSON.str id.Hex)])] ∧
    (doneHandler .fresh ⟨false, request⟩
      (doneHandler .fresh ⟨false, request⟩ collection).2).2 =
      (doneHandler .fresh ⟨false, request⟩ collection).2 := by
  have hx1 : (ObjectIDFromHex request.Task).1 = id := by rw [hx]
  have h1 := doneHandler_found request id collection hx1 hmem
  have hmem2 : id ∈ Collection.ids (updateFirst id collection).1 := by
    unfold Collection.ids at *
    rw [updateFirst_ids]
    exact hmem
  have h2 := doneHandler_found request id (updateFirst id collection).1 hx1 hmem2
  have hmap := updateFirst_eq_map id collection hwf
  have e1 : (doneHandler .fresh ⟨false, request⟩ collection).2 =
      (updateFirst id collection).1 := by rw [h1]
  rw [e1, h2]
  refine ⟨by rw [h1], hmap, ?_, ?_, rfl, rfl, ?_⟩
  · simp only [Collection.ids, List.mem_map] at hmem2
    obtain ⟨t, ht, hid⟩ := hmem2
    exact ⟨t, ht, hid⟩
  · intro t ht hid
    rw [hmap, List.mem_map] at ht
    obtain ⟨u, -, hu⟩ := ht
    by_cases hc : u.ID = id
    · rw [if_pos hc] at hu
      rw [← hu]
    · rw [if_neg hc] at hu
      rw [← hu] at hid
      exact absurd hid hc
  · exact updateFirst_idem id collection

theorem doneHandler_idempotent_witness :
    ObjectIDFromHex sampleRequest.Task = (sampleID, false) ∧
    sampleID ∈ Collection.ids [sampleTask₂, sampleTask] ∧
    Collection.WF [sampleTask₂, sampleTask] ∧
    (doneHandler .fresh ⟨false, sampleRequest⟩ [sampleTask₂, sampleTask]).1.status
      = some 200 ∧
    (doneHandler .fresh ⟨false, sampleRequest⟩ [sampleTask₂, sampleTask]).2 =
      [sampleTask₂, sampleTask].map
        (fun t => if t.ID = sampleID then { t with Completed := true } else t) ∧
    (∃ t ∈ (doneHandler .fresh ⟨false, sampleRequest⟩ [sampleTask₂, sampleTask]).2,
      t.ID = sampleID) ∧
    (∀ t ∈ (doneHandler .fresh ⟨false, sampleRequest⟩ [sampleTask₂, sampleTask]).2,
      t.ID = sampleID → t.Completed = true) ∧
    (doneHandler .fresh ⟨false, sampleRequest⟩
      (doneHandler .fresh ⟨false, sampleRequest⟩ [sampleTask₂, sampleTask]).2).1.status
      = some 200 ∧
    (doneHandler .fresh ⟨false, sampleRequest⟩
      (doneHandler .fresh ⟨false, sampleRequest⟩ [sampleTask₂, sampleTask]).2).1.body =
      [Chunk.json (JSON.obj [("message", JSON.str "Status successfully updated."),
        ("id", JSON.str sampleID.Hex)])] ∧
    (doneHandler .fresh ⟨false, sampleRequest⟩
      (doneHandler .fresh ⟨false, sampleRequest⟩ [sampleTask₂, sampleTask]).2).2 =
      (doneHandler .fresh ⟨false, sampleRequest⟩ [sampleTask₂, sampleTask]).2 :=
  ⟨by decide, by decide, by decide,
    doneHandler_idempotent sampleRequest sampleID [sampleTask₂, sampleTask]
      (by decide) (by decide) (by decide)⟩

/-- C4: for a well-formed identifier of a task held in the collection (a collection
whose `_id`s are unique, as MongoDB keeps them), `deleteHandler` removes exactly one
document, the one with that identifier: the collection
afterwards is the collection before without it, every other task unchanged and in
place (and the answer is 200 when the body had decoded without error). A second
call with the same identifier removes nothing, answers 400 and writes "No tasks
were deleted" (after the decode-error text when decoding had failed, and followed
by the confirmation object the handler always writes). -/
theorem deleteHandler_removes_one (r : RequestBody) (id : ObjectID)
    (collection : Collection)
    (hx : ObjectIDFromHex r.request.Task = (id, false)) (hmem : id ∈ collection.ids)
    (hwf : collection.WF) :
    (deleteHandler .fresh r collection).1.status
      = some (if r.decodeErr then 400 else 200) ∧
    (deleteHandler .fresh r collection).2.length + 1 = collection.length ∧
    (deleteHandler .fresh r collection).2 =
      collection.filter (fun t => decide (t.ID ≠ id)) ∧
    (∀ t, t ∈ (deleteHandler .fresh r collection).2 ↔ (t ∈ collection ∧ t.ID ≠ id)) ∧
    (deleteHandler .fresh r (deleteHandler .fresh r collection).2).2 =
      (deleteHandler .fresh r collection).2 ∧
    (deleteHandler .fresh r (deleteHandler .fresh r collection).2).1.status = some 400 ∧
    (deleteHandler .fresh r (deleteHandler .fresh r collection).2).1.body =
      (if r.decodeErr then
        [Chunk.text "Decode error! please check your JSON formating."] else []) ++
      [Chunk.text "No tasks were deleted",
       Chunk.json (JSON.obj [("message", JSON.str "Task successfully deleted."),
        ("id", JSON.str r.request.Task)])] := by
  have hx1 : (ObjectIDFromHex r.request.Task).1 = id := by rw [hx]
  obtain ⟨e1, hst, -⟩ := deleteHandler_found r id collection hx1 hmem
  have hfil := deleteFirst_eq_filter id collection hwf
  have hgone : (ObjectIDFromHex r.request.Task).1 ∉
      Collection.ids (deleteFirst id collection).1 := by
    rw [hx1, hfil]
    simp [Collection.ids]
  obtain ⟨e2, hst2, hb2⟩ := deleteHandler_not_found r (deleteFirst id collection).1 hgone
  rw [e1]
  refine ⟨hst, (deleteFirst_present id collection hmem).2, hfil, ?_, e2, hst2, hb2⟩
  intro t
  rw [hfil]
  simp

theorem deleteHandler_removes_one_witness :
    ObjectIDFromHex (RequestBody.mk false sampleRequest).request.Task = (sampleID, false) ∧
    sampleID ∈ Collection.ids [sampleTask₂, sampleTask] ∧
    Collection.WF [sampleTask₂, sampleTask] ∧
    (deleteHandler .fresh ⟨false, sampleRequest⟩ [sampleTask₂, sampleTask]).1.status
      = some (if (RequestBody.mk false sampleRequest).decodeErr then 400 else 200) ∧
    (deleteHandler .fresh ⟨false, sampleRequest⟩ [sampleTask₂, sampleTask]).2.length + 1
      = [sampleTask₂, sampleTask].length ∧
    (deleteHandler .fresh ⟨false, sampleRequest⟩ [sampleTask₂, sampleTask]).2 =
      [sampleTask₂, sampleTask].filter (fun t => decide (t.ID ≠ sampleID)) ∧
    (∀ t, t ∈ (deleteHandler .fresh ⟨false, sampleRequest⟩ [sampleTask₂, sampleTask]).2 ↔
      (t ∈ [sampleTask₂, sampleTask] ∧ t.ID ≠ sampleID)) ∧
    (deleteHandler .fresh ⟨false, sampleRequest⟩
      (deleteHandler .fresh ⟨false, sampleRequest⟩ [sampleTask₂, sampleTask]).2).2 =
      (deleteHandler .fresh ⟨false, sampleRequest⟩ [sampleTask₂, sampleTask]).2 ∧
    (deleteHandler .fresh ⟨false, sampleRequest⟩
      (deleteHandler .fresh ⟨false, sampleRequest⟩ [sampleTask₂, sampleTask]).2).1.status
      = some 400 ∧
    (deleteHandler .fresh ⟨false, sampleRequest⟩
      (deleteHandler .fresh ⟨false, sampleRequest⟩ [sampleTask₂, sampleTask]).2).1.body =
      (if (RequestBody.mk false sampleRequest).decodeErr then
        [Chunk.text "Decode error! please check your JSON formating."] else []) ++
      [Chunk.text "No tasks were deleted",
       Chunk.json (JSON.obj [("message", JSON.str "Task successfully deleted."),
        ("id", JSON.str (RequestBody.mk false sampleRequest).request.Task)])] :=
  ⟨by decide, by decide, by decide,
    deleteHandler_removes_one ⟨false, sampleRequest⟩ sampleID [sampleTask₂, sampleTask]
      (by decide) (by decide) (by decide)⟩

/-- C5: starting from an empty collection, after `N ≥ 1` create requests with
non-empty text (each served with a newly generated identifier, so that the `N`
identifiers are pairwise distinct), `indexHandler` answers 200 with
`Content-Type: application/json` and one JSON array of exactly `N` tasks, the
created ones in order; on an empty collection it answers 400 with the body
`No tasks to return.null`, which is not a JSON text. -/
theorem indexHandler_after_creates (N : Nat) (calls : List AddCall) (hN : 1 ≤ N)
    (hlen : calls.length = N)
    (htext : ∀ a ∈ calls, a.body.request.Task ≠ "")
    (hfresh : (calls.map AddCall.newObjectID).Nodup) :
    ((indexHandler .fresh (runAdds calls [])).status = some 200 ∧
     (indexHandler .fresh (runAdds calls [])).sentHeader "Content-Type"
       = some "application/json" ∧
     ∃ items, (indexHandler .fresh (runAdds calls [])).body = [Chunk.json (JSON.arr items)] ∧
       items.length = N ∧
       items = calls.map (fun a => a.stored.MarshalJSON)) ∧
    ((indexHandler .fresh []).status = some 400 ∧
     (indexHandler .fresh []).body = [Chunk.text "No tasks to return.", Chunk.json JSON.null] ∧
     bodyStartsLikeJSON (indexHandler .fresh []).body = false) := by
  have hrun : runAdds calls [] = calls.map AddCall.stored := by
    rw [runAdds_fresh calls [] htext hfresh (by simp [Collection.ids])]
    simp
  refine ⟨?_, by decide, rfl, by decide⟩
  rw [hrun]
  cases calls with
  | nil => simp at hlen; omega
  | cons a rest =>
    rw [List.map_cons, indexHandler_nonempty]
    refine ⟨rfl, rfl, _, rfl, ?_, ?_⟩
    · simpa using hlen
    · simp

theorem indexHandler_after_creates_witness :
    1 ≤ 2 ∧
    [AddCall.mk buyMilk sampleID 5 7, AddCall.mk ⟨true, ⟨"", "walk dog"⟩⟩ sampleID₂ 8 9].length
      = 2 ∧
    (∀ a ∈ [AddCall.mk buyMilk sampleID 5 7,
        AddCall.mk ⟨true, ⟨"", "walk dog"⟩⟩ sampleID₂ 8 9], a.body.request.Task ≠ "") ∧
    ([AddCall.mk buyMilk sampleID 5 7,
        AddCall.mk ⟨true, ⟨"", "walk dog"⟩⟩ sampleID₂ 8 9].map AddCall.newObjectID).Nodup ∧
    (((indexHandler .fresh (runAdds [AddCall.mk buyMilk sampleID 5 7,
        AddCall.mk ⟨true, ⟨"", "walk dog"⟩⟩ sampleID₂ 8 9] [])).status = some 200 ∧
     (indexHandler .fresh (runAdds [AddCall.mk buyMilk sampleID 5 7,
        AddCall.mk ⟨true, ⟨"", "walk dog"⟩⟩ sampleID₂ 8 9] [])).sentHeader "Content-Type"
       = some "application/json" ∧
     ∃ items, (indexHandler .fresh (runAdds [AddCall.mk buyMilk sampleID 5 7,
        AddCall.mk ⟨true, ⟨"", "walk dog"⟩⟩ sampleID₂ 8 9] [])).body
          = [Chunk.json (JSON.arr items)] ∧
       items.length = 2 ∧
       items = [AddCall.mk buyMilk sampleID 5 7,
        AddCall.mk ⟨true, ⟨"", "walk dog"⟩⟩ sampleID₂ 8 9].map
          (fun a => a.stored.MarshalJSON)) ∧
    ((indexHandler .fresh []).status = some 400 ∧
     (indexHandler .fresh []).body = [Chunk.text "No tasks to return.", Chunk.json JSON.null] ∧
     bodyStartsLikeJSON (indexHandler .fresh []).body = false)) :=
  ⟨by decide, rfl, by decide, by decide,
    indexHandler_after_creates 2 [AddCall.mk buyMilk sampleID 5 7,
        AddCall.mk ⟨true, ⟨"", "walk dog"⟩⟩ sampleID₂ 8 9] (by decide) rfl (by decide)
      (by decide)⟩

/-- C7, as the code has it: a create request that decodes to non-empty text `s` is
answered with status 200, `Content-Type: application/json`, and one JSON object
whose keys are exactly "ID", "CreatedAt", "UpdatedAt", "Text" and "Completed"
(the Go field names), where "Text" is `s`, "Completed" is false and "ID" is the
hex text of the generated identifier. -/
theorem addHandler_response (request : Request) (newObjectID : ObjectID) (now₁ now₂ : Time)
    (collection : Collection) (hs : request.Task ≠ "") :
    (addHandler .fresh ⟨false, request⟩ newObjectID now₁ now₂ collection).1.status
      = some 200 ∧
    (addHandler .fresh ⟨false, request⟩ newObjectID now₁ now₂ collection).1.sentHeader
      "Content-Type" = some "application/json" ∧
    ∃ v, (addHandler .fresh ⟨false, request⟩ newObjectID now₁ now₂ collection).1.body
        = [Chunk.json v] ∧
      v.keys = some ["ID", "CreatedAt", "UpdatedAt", "Text", "Completed"] ∧
      v.field "ID" = some (JSON.str newObjectID.Hex) ∧
      v.field "Text" = some (JSON.str request.Task) ∧
      v.field "Completed" = some (JSON.bool false) := by
  refine ⟨?_, ?_, Task.MarshalJSON ⟨newObjectID, now₁, now₂, request.Task, false⟩, ?_,
    rfl, rfl, rfl, rfl⟩ <;>
  simp [addHandler, hs, ResponseWriter.Write, ResponseWriter.WriteHeader,
    ResponseWriter.SetHeader, ResponseWriter.fresh, ResponseWriter.sentHeader]

theorem addHandler_response_witness :
    buyMilk.request.Task ≠ "" ∧
    (addHandler .fresh ⟨false, buyMilk.request⟩ sampleID 5 7 [sampleTask₂]).1.status
      = some 200 ∧
    (addHandler .fresh ⟨false, buyMilk.request⟩ sampleID 5 7 [sampleTask₂]).1.sentHeader
      "Content-Type" = some "application/json" ∧
    ∃ v, (addHandler .fresh ⟨false, buyMilk.request⟩ sampleID 5 7 [sampleTask₂]).1.body
        = [Chunk.json v] ∧
      v.keys = some ["ID", "CreatedAt", "UpdatedAt", "Text", "Completed"] ∧
      v.field "ID" = some (JSON.str sampleID.Hex) ∧
      v.field "Text" = some (JSON.str buyMilk.request.Task) ∧
      v.field "Completed" = some (JSON.bool false) :=
  ⟨by decide, addHandler_response buyMilk.request sampleID 5 7 [sampleTask₂] (by decide)⟩

/-- C7 as stated fails: for the body `{"task":"buy milk"}` the response body is not
a JSON object with the keys "_id", "created_at", "updated_at", "text", "completed";
and for a body with the same text on which `Decode` reports an error, such as
`{"command":1,"task":"buy milk"}`, the status is 400, not 200. -/
theorem addHandler_keys_counterexample :
    (¬ ∃ v, (addHandler .fresh buyMilk sampleID 5 7 []).1.body = [Chunk.json v] ∧
      v.keys = some ["_id", "created_at", "updated_at", "text", "completed"]) ∧
    (RequestBody.mk true ⟨"", "buy milk"⟩).request.Task ≠ "" ∧
    (addHandler .fresh ⟨true, ⟨"", "buy milk"⟩⟩ sampleID 5 7 []).1.status = some 400 := by
  refine ⟨?_, by decide, by decide⟩
  rintro ⟨v, hv, hk⟩
  have hb : (addHandler .fresh buyMilk sampleID 5 7 []).1.body =
      [Chunk.json (Task.MarshalJSON ⟨sampleID, 5, 7, "buy milk", false⟩)] := rfl
  rw [hb] at hv
  simp only [List.cons.injEq, Chunk.json.injEq, and_true] at hv
  subst hv
  simp [Task.MarshalJSON, JSON.keys] at hk

/-- C8, as the code has it: for a hex string accepted by `ObjectIDFromHex` that
identifies a task held in the collection, `doneHandler` answers 200 with
`Content-Type: application/json` and the object {message: "Status successfully
updated.", id: y}, where `y` is the lower-case form of the string sent. -/
theorem doneHandler_response (request : Request) (id : ObjectID) (collection : Collection)
    (hx : ObjectIDFromHex request.Task = (id, false)) (hmem : id ∈ collection.ids) :
    (doneHandler .fresh ⟨false, request⟩ collection).1.status = some 200 ∧
    (doneHandler .fresh ⟨false, request⟩ collection).1.sentHeader "Content-Type"
      = some "application/json" ∧
    (doneHandler .fresh ⟨false, request⟩ collection).1.body =
      [Chunk.json (JSON.obj [("message", JSON.str "Status successfully updated."),
        ("id", JSON.str (lowerCase request.Task))])] := by
  have hx1 : (ObjectIDFromHex request.Task).1 = id := by rw [hx]
  rw [doneHandler_found request id collection hx1 hmem, ← Hex_ObjectIDFromHex _ _ hx]
  exact ⟨rfl, rfl, rfl⟩

theorem doneHandler_response_witness :
    ObjectIDFromHex upperRequest.Task = (sampleID, false) ∧
    sampleID ∈ Collection.ids [sampleTask₂, sampleTask] ∧
    (doneHandler .fresh ⟨false, upperRequest⟩ [sampleTask₂, sampleTask]).1.status
      = some 200 ∧
    (doneHandler .fresh ⟨false, upperRequest⟩ [sampleTask₂, sampleTask]).1.sentHeader
      "Content-Type" = some "application/json" ∧
    (doneHandler .fresh ⟨false, upperRequest⟩ [sampleTask₂, sampleTask]).1.body =
      [Chunk.json (JSON.obj [("message", JSON.str "Status successfully updated."),
        ("id", JSON.str (lowerCase upperRequest.Task))])] :=
  ⟨by decide, by decide,
    doneHandler_response upperRequest sampleID [sampleTask₂, sampleTask] (by decide)
      (by decide)⟩

/-- C8 as stated fails: `5F3C0A1B2C3D4E5F60718293` is accepted by `ObjectIDFromHex`
and identifies a task held in the collection, yet the id in the response is
`5f3c0a1b2c3d4e5f60718293`, not the string sent. -/
theorem doneHandler_id_counterexample :
    ObjectIDFromHex "5F3C0A1B2C3D4E5F60718293" = (sampleID, false) ∧
    sampleID ∈ Collection.ids [sampleTask] ∧
    (doneHandler .fresh ⟨false, ⟨"", "5F3C0A1B2C3D4E5F60718293"⟩⟩ [sampleTask]).1.body =
      [Chunk.json (JSON.obj [("message", JSON.str "Status successfully updated."),
        ("id", JSON.str "5f3c0a1b2c3d4e5f60718293")])] ∧
    (doneHandler .fresh ⟨false, ⟨"", "5F3C0A1B2C3D4E5F60718293"⟩⟩ [sampleTask]).1.body ≠
      [Chunk.json (JSON.obj [("message", JSON.str "Status successfully updated."),
        ("id", JSON.str "5F3C0A1B2C3D4E5F60718293")])] := by
  have hb : (doneHandler .fresh ⟨false, ⟨"", "5F3C0A1B2C3D4E5F60718293"⟩⟩
      [sampleTask]).1.body =
      [Chunk.json (JSON.obj [("message", JSON.str "Status successfully updated."),
        ("id", JSON.str "5f3c0a1b2c3d4e5f60718293")])] := rfl
  refine ⟨by decide, by decide, hb, ?_⟩
  rw [hb]
  simp

/-- C9: for the body `{"task":"000000000000000000000000"}` and a collection that has
no such task, `deleteHandler` answers 400, but the body is the text "No tasks were
deleted" followed by the confirmation object, not that text alone. -/
theorem deleteHandler_unknown_id_body :
    (ObjectIDFromHex zeroRequest.Task).2 = false ∧
    (ObjectIDFromHex zeroRequest.Task).1 ∉ Collection.ids [sampleTask] ∧
    (deleteHandler .fresh ⟨false, zeroRequest⟩ [sampleTask]).1.status = some 400 ∧
    (deleteHandler .fresh ⟨false, zeroRequest⟩ [sampleTask]).1.body =
      [Chunk.text "No tasks were deleted",
       Chunk.json (JSON.obj [("message", JSON.str "Task successfully deleted."),
        ("id", JSON.str "000000000000000000000000")])] ∧
    (deleteHandler .fresh ⟨false, zeroRequest⟩ [sampleTask]).1.body ≠
      [Chunk.text "No tasks were deleted"] ∧
    (deleteHandler .fresh ⟨false, zeroRequest⟩ [sampleTask]).2 = [sampleTask] := by
  have hno : (ObjectIDFromHex zeroRequest.Task).1 ∉ Collection.ids [sampleTask] := by decide
  have hb : (deleteHandler .fresh ⟨false, zeroRequest⟩ [sampleTask]).1.body =
      [Chunk.text "No tasks were deleted",
       Chunk.json (JSON.obj [("message", JSON.str "Task successfully deleted."),
        ("id", JSON.str "000000000000000000000000")])] := rfl
  refine ⟨by decide, hno, by decide, hb, ?_, by decide⟩
  rw [hb]
  simp

/-- C10: a mark-complete request whose identifier matches no document is answered
with status 400, `Content-Type: text/plain; charset=utf-8` and the single line
"Cannot find task to update."; nothing else is written and the collection is
left as it was. -/
theorem doneHandler_unknown_id (request : Request) (collection : Collection)
    (hno : ∀ t ∈ collection, t.ID ≠ (ObjectIDFromHex request.Task).1) :
    (doneHandler .fresh ⟨false, request⟩ collection).1.status = some 400 ∧
    (doneHandler .fresh ⟨false, request⟩ collection).1.sentHeader "Content-Type"
      = some "text/plain; charset=utf-8" ∧
    (doneHandler .fresh ⟨false, request⟩ collection).1.body
      = [Chunk.text "Cannot find task to update.\n"] ∧
    (doneHandler .fresh ⟨false, request⟩ collection).2 = collection := by
  have hno1 : (ObjectIDFromHex request.Task).1 ∉ collection.ids := by
    intro h
    simp only [Collection.ids, List.mem_map] at h
    obtain ⟨t, ht, e⟩ := h
    exact hno t ht e
  rw [doneHandler_not_found request collection hno1]
  exact ⟨rfl, rfl, rfl, rfl⟩

theorem doneHandler_unknown_id_witness :
    (∀ t ∈ [sampleTask₂, sampleTask], t.ID ≠ (ObjectIDFromHex zeroRequest.Task).1) ∧
    (doneHandler .fresh ⟨false, zeroRequest⟩ [sampleTask₂, sampleTask]).1.status
      = some 400 ∧
    (doneHandler .fresh ⟨false, zeroRequest⟩ [sampleTask₂, sampleTask]).1.sentHeader
      "Content-Type" = some "text/plain; charset=utf-8" ∧
    (doneHandler .fresh ⟨false, zeroRequest⟩ [sampleTask₂, sampleTask]).1.body
      = [Chunk.text "Cannot find task to update.\n"] ∧
    (doneHandler .fresh ⟨false, zeroRequest⟩ [sampleTask₂, sampleTask]).2
      = [sampleTask₂, sampleTask] :=
  ⟨by decide, doneHandler_unknown_id zeroRequest [sampleTask₂, sampleTask] (by decide)⟩

end Tasker
